import Mathlib

/-!
Verification of `tensorflow_datasets/core/dataset_builder.py`.

The pure decision logic of the module is embedded shallowly:

* version resolution (`DatasetBuilder.versions`, `DatasetBuilder._pick_version`),
* location resolution (`DatasetBuilder._build_data_dir`, `_list_all_version_dirs`),
* the atomic build transaction of `download_and_prepare`,
* the pre-flight checks of `download_and_prepare`,
* the read-pipeline composition (`_build_single_dataset`, `_should_cache_ds`),
* builder-config validation (`_create_builder_config`),
* the versioning guard of the `info` property.

`utils.Version`, `utils.incomplete_dir` and the split catalog accessors live in
other files of the repository; where they are needed they are modelled from the
specification and marked as such in their doc comments.  The filesystem and the
`tf.data` pipeline are external collaborators; they are represented by explicit
data (directory listings, pipeline plans) so that every definition is executable.
-/

namespace Tfds

/--
Modelled from the spec: `utils.Version` (defined outside the provided sources) is
an ordered triple (major, minor, patch) plus an optional
must-prepare-with-earlier-code marker `tfds_version_to_prepare`.
-/
structure Version where
  major : Nat
  minor : Nat
  patch : Nat
  tfds_version_to_prepare : Option String := none
deriving DecidableEq

/-- Lexicographic strict order on the (major, minor, patch) triple. -/
def Version.blt (a b : Version) : Bool :=
  (a.major < b.major) ||
    (a.major == b.major &&
      ((a.minor < b.minor) || (a.minor == b.minor && (a.patch < b.patch))))

/-- Equality of the (major, minor, patch) triples (the marker is not ordered). -/
def Version.sameKey (a b : Version) : Bool :=
  a.major == b.major && a.minor == b.minor && a.patch == b.patch

/-- Lexicographic non-strict order on the (major, minor, patch) triple. -/
def Version.ble (a b : Version) : Bool := a.blt b || a.sameKey b

/-- The string form "X.Y.Z" of a version (Python `str(version)`). -/
def Version.toStr (v : Version) : String :=
  toString v.major ++ "." ++ toString v.minor ++ "." ++ toString v.patch

/--
Modelled from the spec: a requested version string, parsed. Each component is
either a number or a wildcard (`none`), a wildcard being written `*` or simply
omitted in the request string.
-/
structure VersionPattern where
  major : Option Nat
  minor : Option Nat
  patch : Option Nat
deriving DecidableEq

/--
Modelled from the spec: `Version.match` — a version matches a pattern when every
non-wildcard component of the pattern equals the corresponding component.
-/
def Version.matches (v : Version) (p : VersionPattern) : Bool :=
  (p.major.all fun n => n == v.major) &&
    (p.minor.all fun n => n == v.minor) &&
    (p.patch.all fun n => n == v.patch)

/--
A version request as received by `DatasetBuilder._pick_version`: unset (Python
`None`), the sentinel string "experimental_latest", or a version pattern.
-/
inductive VersionRequest where
  | unset
  | experimentalLatest
  | pattern (p : VersionPattern)
deriving DecidableEq

/-- The version data of a builder: its canonical version plus the supported ones. -/
structure VersionSet where
  canonical : Version
  supported : List Version
deriving DecidableEq

/-- Embeds `DatasetBuilder.versions`: canonical first, then supported, in order. -/
def VersionSet.versions (s : VersionSet) : List Version := s.canonical :: s.supported

/--
Python `max` over a nonempty list, given as head and tail: the current value is
replaced only by a strictly greater one, so the first maximum is returned.
-/
def pyMax (v : Version) (l : List Version) : Version :=
  l.foldl (fun a b => if a.blt b then b else a) v

/-- Python `max(self.versions)`. -/
def VersionSet.maxVersion (s : VersionSet) : Version := pyMax s.canonical s.supported

/--
Embeds `DatasetBuilder._pick_version`: "experimental_latest" returns the maximum
of the candidates; otherwise the candidates are scanned in listed order and an
unset request accepts the first one (the canonical version); when nothing
matches, the error reports the full candidate list.
-/
def pick_version (s : VersionSet) (req : VersionRequest) : Except (List Version) Version :=
  match req with
  | .experimentalLatest => .ok s.maxVersion
  | .unset => .ok s.canonical
  | .pattern p =>
      match s.versions.find? (fun v => v.matches p) with
      | some v => .ok v
      | none => .error s.versions

/-- Witness fixture: version 0.9.0. -/
def v090 : Version := { major := 0, minor := 9, patch := 0 }

/-- Witness fixture: version 1.0.0. -/
def v100 : Version := { major := 1, minor := 0, patch := 0 }

/-- Witness fixture: version 1.1.0. -/
def v110 : Version := { major := 1, minor := 1, patch := 0 }

/-- Witness fixture: version 2.0.0. -/
def v200 : Version := { major := 2, minor := 0, patch := 0 }

/-- Witness fixture: canonical 1.0.0 with supported versions 1.1.0 and 0.9.0. -/
def vs1 : VersionSet := { canonical := v100, supported := [v110, v090] }

/-- Witness fixture: the request "1" (major 1, minor and patch omitted). -/
def pat1 : VersionPattern := { major := some 1, minor := none, patch := none }

/-- Witness fixture: the request "2.5.0", matched by no candidate of `vs1`. -/
def pat250 : VersionPattern := { major := some 2, minor := some 5, patch := some 0 }

/-- Python `max` over a list of versions, `none` when the list is empty. -/
def pyMaxList : List Version → Option Version
  | [] => none
  | v :: l => some (pyMax v l)

/-- The generation mode carried by `tfds.download.DownloadConfig.download_mode`. -/
inductive GenerateMode where
  | force_redownload
  | reuse_cache_if_exists
  | reuse_dataset_if_exists
deriving DecidableEq

/--
Outcome of the part of `DatasetBuilder.download_and_prepare` that runs before the
build transaction opens.  Error constructors carry the data reported in the
corresponding error message.
-/
inductive PrepareCheck where
  | reuseExisting
  | errTfdsVersionToPrepare (availableToPrepare : List String)
  | errVersionTooOld (installable : List String)
  | errAlreadyExists
  | errNotEnoughSpace
  | proceed
deriving DecidableEq

/--
Embeds the `installable_versions` value of `download_and_prepare`: the Python
set `{str(v) for v in (self.canonical_version, max(self.versions))}` as the
deduplicated list of its elements, canonical first (the error message prints the
set sorted; the order of this list does not model that cosmetic sorting).
-/
def installable_versions (s : VersionSet) : List String :=
  if s.canonical.toStr = s.maxVersion.toStr then [s.canonical.toStr]
  else [s.canonical.toStr, s.maxVersion.toStr]

/--
Embeds the pre-flight decision sequence of `DatasetBuilder.download_and_prepare`
(the Python-2 guard is omitted, Python 3 being assumed): reuse-and-return when
the data exists under mode REUSE_DATASET_IF_EXISTS; then the
must-prepare-with-earlier-code check; then the installable-version check; then
the already-exists check; then the disk-space check; then generation proceeds.
-/
def download_and_prepare_pre (s : VersionSet) (resolved : Version)
    (mode : GenerateMode) (data_exists : Bool) (has_space : Bool) : PrepareCheck :=
  if data_exists && (mode == .reuse_dataset_if_exists) then .reuseExisting
  else if resolved.tfds_version_to_prepare.isSome then
    .errTfdsVersionToPrepare
      ((s.versions.filter (fun v => v.tfds_version_to_prepare.isNone)).map Version.toStr)
  else if resolved.toStr ∉ installable_versions s then
    .errVersionTooOld (installable_versions s)
  else if data_exists then .errAlreadyExists
  else if !has_space then .errNotEnoughSpace
  else .proceed

/-- Witness fixture: canonical 2.0.0 with supported versions 1.1.0 and 0.9.0. -/
def vs2 : VersionSet := { canonical := v200, supported := [v110, v090] }

/-- Witness fixture: version 1.0.0 carrying a must-prepare-with-earlier-code marker. -/
def v100marked : Version :=
  { major := 1, minor := 0, patch := 0, tfds_version_to_prepare := some "v3.2.1" }

/-- Witness fixture: canonical 2.0.0 supporting the marker-carrying 1.0.0. -/
def vs3 : VersionSet := { canonical := v200, supported := [v100marked] }

/-- One MiB, `units.MiB`. -/
def MiB : Nat := 1048576

/-- Python `sys.maxsize` on a 64-bit platform. -/
def sysMaxsize : Int := 9223372036854775807

/-- The per-split metadata the read path consults: example count and shard count
(the length of `file_instructions`). -/
structure SplitInfoM where
  num_examples : Nat
  num_shards : Nat
deriving DecidableEq

/-- The fields of `DatasetInfo` consulted by `_build_single_dataset` and
`_should_cache_ds`. -/
structure DatasetInfoM where
  dataset_size : Option Nat
  splits : List (String × SplitInfoM)
  supervised_keys : Option (String × String)
deriving DecidableEq

/--
Modelled from the spec: `SplitDict.total_num_examples` (the splits library is
outside the provided sources) — the total example count of the dataset, summed
over all splits of the catalog.
-/
def total_num_examples (info : DatasetInfoM) : Nat :=
  (info.splits.map fun kv => kv.2.num_examples).sum

/-- The example count of one selected split of the catalog (0 when absent). -/
def split_num_examples (info : DatasetInfoM) (split : String) : Nat :=
  ((info.splits.find? fun kv => kv.1 == split).map fun kv => kv.2.num_examples).getD 0

/-- The shard count of one selected split: `len(info.splits[split].file_instructions)`. -/
def split_num_shards (info : DatasetInfoM) (split : String) : Nat :=
  ((info.splits.find? fun kv => kv.1 == split).map fun kv => kv.2.num_shards).getD 0

/-- The fields of `tfds.ReadConfig` consulted by the read path. -/
structure ReadConfigM where
  try_autocache : Bool := true
  shuffle_reshuffle_each_iteration : Option Bool := none
  shuffle_seed : Option Nat := none
  experimental_deterministic : Option Bool := none
deriving DecidableEq

/--
Embeds `DatasetBuilder._should_cache_ds`: no caching when auto-caching is
disabled, when the dataset size is unknown (`None`) or zero, when it exceeds
250 MiB, or when shuffling is on, reshuffling is not explicitly disabled and the
selected split has more than one shard; otherwise the split is cached.
-/
def should_cache_ds (info : DatasetInfoM) (split : String)
    (shuffle_files : Bool) (rc : ReadConfigM) : Bool :=
  if !rc.try_autocache then false
  else if info.dataset_size.getD 0 == 0 then false
  else if info.dataset_size.getD 0 > 250 * MiB then false
  else if shuffle_files && !(rc.shuffle_reshuffle_each_iteration == some false) &&
      decide (1 < split_num_shards info split) then false
  else true

/--
The shape of the `tf.data` pipeline `_build_single_dataset` composes: whether
the base stream is cached, the padded-batch size applied (if any), the
supervised key pair projected onto (if any), the unconditional prefetch stage,
whether the non-deterministic option is set, and whether the whole split is
returned as one dense element.
-/
structure PipelinePlan where
  cached : Bool
  padded_batch : Option Int
  projected : Option (String × String)
  prefetched : Bool
  nondeterministic : Bool
  wantsFull : Bool
deriving DecidableEq

/-- The error message raised for `as_supervised=True` without supervised keys. -/
def notSupervisedMsg : String :=
  "as_supervised=True but the dataset does not support a supervised (input, label) structure."

/--
Embeds `DatasetBuilder._build_single_dataset` as the plan of the composed read
pipeline: the sentinel `batch_size == -1` requests the whole split as one dense
element and replaces the batch size by `total_num_examples or sys.maxsize`;
auto-caching follows `_should_cache_ds`; a truthy batch size triggers padded
batching; supervised mode requires declared supervised keys and projects onto
them; prefetch is unconditional; and the pipeline may be non-deterministic only
when shuffling without an explicit seed or determinism option.
-/
def build_single_dataset (info : DatasetInfoM) (split : String)
    (shuffle_files : Bool) (batch_size : Option Int) (rc : ReadConfigM)
    (as_supervised : Bool) : Except String PipelinePlan :=
  let wants_full_dataset := batch_size == some (-1)
  let batch_size :=
    if wants_full_dataset then
      some (if total_num_examples info == 0 then sysMaxsize
            else (total_num_examples info : Int))
    else batch_size
  if as_supervised && info.supervised_keys.isNone then .error notSupervisedMsg
  else
    .ok { cached := should_cache_ds info split shuffle_files rc
          padded_batch :=
            match batch_size with
            | none => none
            | some b => if b == 0 then none else some b
          projected := if as_supervised then info.supervised_keys else none
          prefetched := true
          nondeterministic := shuffle_files &&
            rc.experimental_deterministic.isNone && rc.shuffle_seed.isNone
          wantsFull := wants_full_dataset }

/-- Looks one feature up in the feature mapping of an example. -/
def lookupFeature (fs : List (String × Nat)) (k : String) : Option Nat :=
  (fs.find? fun kv => kv.1 == k).map fun kv => kv.2

/--
Embeds the supervised projection stage of `_build_single_dataset` on a stream of
examples, each a feature mapping: without declared supervised keys the read
fails; with keys (input, label) every example is replaced by the corresponding
2-tuple; without supervised mode the stream passes through unchanged.
-/
def as_supervised_stage (supervised_keys : Option (String × String))
    (as_supervised : Bool) (ds : List (List (String × Nat))) :
    Except String (Sum (List (List (String × Nat))) (List (Option Nat × Option Nat))) :=
  if as_supervised then
    match supervised_keys with
    | none => .error notSupervisedMsg
    | some it => .ok (.inr (ds.map fun fs => (lookupFeature fs it.1, lookupFeature fs it.2)))
  else .ok (.inl ds)

/-- Witness fixture: default read configuration. -/
def rcDefault : ReadConfigM := {}

/-- Witness fixture: a 10 MiB dataset with a single single-shard split. -/
def info10MiB1Shard : DatasetInfoM :=
  { dataset_size := some (10 * MiB)
    splits := [("train", { num_examples := 100, num_shards := 1 })]
    supervised_keys := none }

/-- Witness fixture: a 10 MiB dataset whose split has two shards. -/
def info10MiB2Shards : DatasetInfoM :=
  { dataset_size := some (10 * MiB)
    splits := [("train", { num_examples := 100, num_shards := 2 })]
    supervised_keys := none }

/-- Witness fixture: a 251 MiB dataset with a single-shard split. -/
def infoBig : DatasetInfoM :=
  { dataset_size := some (251 * MiB)
    splits := [("train", { num_examples := 100, num_shards := 1 })]
    supervised_keys := none }

/-- Witness fixture: a dataset of unknown byte size. -/
def infoUnknownSize : DatasetInfoM :=
  { dataset_size := none
    splits := [("train", { num_examples := 100, num_shards := 1 })]
    supervised_keys := none }

/-- Witness fixture: a two-split catalog, "train" with 3 examples and "test" with 2. -/
def infoTwoSplits : DatasetInfoM :=
  { dataset_size := some MiB
    splits := [("train", { num_examples := 3, num_shards := 1 }),
               ("test", { num_examples := 2, num_shards := 1 })]
    supervised_keys := none }

/-- Witness fixture: a catalog whose only split holds zero examples. -/
def infoZeroExamples : DatasetInfoM :=
  { dataset_size := some MiB
    splits := [("train", { num_examples := 0, num_shards := 1 })]
    supervised_keys := none }

/-- Witness fixture: a supervised dataset projecting ("image", "label"). -/
def infoSupervised : DatasetInfoM :=
  { dataset_size := some MiB
    splits := [("train", { num_examples := 3, num_shards := 1 })]
    supervised_keys := some ("image", "label") }

/-- Witness fixture: the plan produced for the two-split catalog with the sentinel
batch size: cached, padded to the dataset total 5, whole split as one element. -/
def planTwoSplitsFull : PipelinePlan :=
  { cached := true
    padded_batch := some 5
    projected := none
    prefetched := true
    nondeterministic := false
    wantsFull := true }

/--
The fields of a `BuilderConfig` that the validation logic consults; `oid` models
Python object identity, so the `is` comparison of the source becomes equality of
`oid`.
-/
structure BuilderConfigM where
  name : String
  version : Option String
  description : Option String
  oid : Nat
deriving DecidableEq

/-- The errors `_create_builder_config` can raise. -/
inductive ConfigError where
  | notFound (name : String) (available : List String)
  | mustHaveName
  | cannotNameCustomAsAvailable (available : List String)
  | mustHaveVersion (name : String)
  | mustHaveDescription (name : String)
deriving DecidableEq

/-- Python truthiness of an optional string: `None` and the empty string are falsy. -/
def pyTruthy : Option String → Bool
  | none => false
  | some s => !(s == "")

/--
The registered `builder_configs` mapping as name lookup, first entry winning
(the `builder_configs` property raises on duplicated names, so the names of
`BUILDER_CONFIGS` are distinct in any reachable state).
-/
def findConfig (cfgs : List BuilderConfigM) (name : String) : Option BuilderConfigM :=
  cfgs.find? fun c => c.name == name

/--
Embeds the validation part of `DatasetBuilder._create_builder_config`, shared by
the object and string paths: a name is required; a name not registered in
`builder_configs` is accepted with only a warning (second component true),
skipping every further check; a registered name requires the very registered
object and a truthy version and description.
-/
def validate_builder_config (cfgs : List BuilderConfigM) (c : BuilderConfigM) :
    Except ConfigError (Option BuilderConfigM × Bool) :=
  if c.name == "" then .error .mustHaveName
  else
    match findConfig cfgs c.name with
    | none => .ok (some c, true)
    | some r =>
        if !(c.oid == r.oid) then
          .error (.cannotNameCustomAsAvailable (cfgs.map fun x => x.name))
        else if !(pyTruthy c.version) then .error (.mustHaveVersion c.name)
        else if !(pyTruthy c.description) then .error (.mustHaveDescription c.name)
        else .ok (some c, false)

/--
Embeds `DatasetBuilder._create_builder_config`: no config given defaults to the
first of `BUILDER_CONFIGS` when any exist and to no config at all otherwise (an
empty string given as name is falsy and also yields no config); a string is
looked up among the registered configs, failing when absent; the resulting
config object is validated.
-/
def create_builder_config (cfgs : List BuilderConfigM)
    (given : Option (Sum BuilderConfigM String)) :
    Except ConfigError (Option BuilderConfigM × Bool) :=
  match given, cfgs with
  | none, [] => .ok (none, false)
  | none, c0 :: _ => validate_builder_config cfgs c0
  | some (.inr nm), _ =>
      if nm == "" then .ok (none, false)
      else
        match findConfig cfgs nm with
        | none => .error (.notFound nm (cfgs.map fun x => x.name))
        | some c => validate_builder_config cfgs c
  | some (.inl c), _ => validate_builder_config cfgs c

/-- Witness fixture: a fully valid registered config. -/
def cfgPlain : BuilderConfigM :=
  { name := "plain", version := some "1.0.0", description := some "plain variant", oid := 0 }

/-- Witness fixture: a registered config lacking a version. -/
def cfgNoVersion : BuilderConfigM :=
  { name := "noversion", version := none, description := some "described", oid := 2 }

/-- Witness fixture: a registered config lacking a description. -/
def cfgNoDescription : BuilderConfigM :=
  { name := "nodescription", version := some "1.0.0", description := none, oid := 3 }

/-- Witness fixture: a distinct object reusing the registered name "plain". -/
def cfgImpostor : BuilderConfigM :=
  { name := "plain", version := some "9.9.9", description := some "impostor", oid := 7 }

/-- Witness fixture: an unregistered custom config with no version and no
description at all. -/
def cfgCustom : BuilderConfigM :=
  { name := "custom", version := none, description := none, oid := 5 }

/-- Witness fixture: the registered config list of the witness builder. -/
def cfgs9 : List BuilderConfigM := [cfgPlain, cfgNoVersion, cfgNoDescription]

/--
The builder state consulted by the `info` property guard: the `_version`
attribute, absent (`None`) until `_pick_version` has run in the constructor.
-/
structure BuilderVersionState where
  _version : Option Version
deriving DecidableEq

/-- The cached `DatasetInfo` as far as versioning is concerned: it records the
resolved version it was computed for. -/
structure InfoResult where
  version : Version
deriving DecidableEq

/-- The assertion message of the `info` property guard. -/
def infoBeforeVersionMsg : String :=
  "Info should not been called before version has been defined."

/--
Embeds the guard of the `DatasetBuilder.info` property: before `_version` is
set the access raises the assertion error, so `_info()` is only ever computed
once the resolved version is established, and the cached info reflects it.
-/
def builder_info (b : BuilderVersionState) : Except String InfoResult :=
  match b._version with
  | none => .error infoBeforeVersionMsg
  | some v => .ok { version := v }

/-- A filesystem path, as its list of components. -/
abbrev PathC := List String

/-- A flat filesystem: a list of files, each a path with its contents. -/
abbrev FlatFS := List (PathC × String)

/--
Modelled from the spec: `utils.incomplete_dir` combined with the
`utils.temporary_assignment` of `_data_dir` (both defined outside the provided
sources), as used by `download_and_prepare`.  The build body runs with the
output path of the builder rebound to the fresh temporary directory `tmpPath`,
so all its writes land under `tmpPath`; on normal return the temporary directory is
renamed onto `finalPath`; on failure the temporary directory and all its
contents are removed.  `bodyWrites` lists what the body wrote relative to its
rebound output path before returning or failing, and `bodyFails` tells whether
it raised.
-/
def incomplete_dir_run (fs : FlatFS) (finalPath tmpPath : PathC)
    (bodyWrites : List (PathC × String)) (bodyFails : Bool) : Bool × FlatFS :=
  let fsDuring := fs ++ bodyWrites.map (fun kv => (tmpPath ++ kv.1, kv.2))
  if bodyFails then
    (false, fsDuring.filter (fun kv => !(tmpPath.isPrefixOf kv.1)))
  else
    (true, fsDuring.map (fun kv =>
      if tmpPath.isPrefixOf kv.1 then (finalPath ++ kv.1.drop tmpPath.length, kv.2)
      else kv))

/-- Witness fixture: a filesystem holding one unrelated dataset file. -/
def fsOther : FlatFS := [(["data", "other", "1.0.0", "info.json"], "other-info")]

/-- Witness fixture: the final data directory of the build. -/
def finalMnist : PathC := ["data", "mnist", "1.0.0"]

/-- Witness fixture: the temporary staging directory of the build. -/
def tmpMnist : PathC := ["data", "mnist", "1.0.0.incompleteXYZ"]

/-- Witness fixture: what the build body writes under its rebound output path. -/
def writesMnist : List (PathC × String) :=
  [(["mnist-train.tfrecord"], "records"), (["dataset_info.json"], "info")]

/-- A hierarchical filesystem for location resolution: each existing directory
path maps to the list of its entry names. -/
abbrev FileSys := List (String × List String)

/-- Embeds `tf.io.gfile.exists` over the directory map. -/
def fsExists (fs : FileSys) (p : String) : Bool := (fs.lookup p).isSome

/-- Embeds `tf.io.gfile.listdir`: the entries of an existing directory. -/
def fsListdir (fs : FileSys) (p : String) : List String := (fs.lookup p).getD []

/-- Embeds `os.path.join` for one component. -/
def pathJoin (a b : String) : String := a ++ "/" ++ b

/-- Splits a list of characters at every dot. -/
def splitDots : List Char → List (List Char)
  | [] => [[]]
  | c :: cs =>
      let r := splitDots cs
      if c = '.' then [] :: r
      else
        match r with
        | [] => [[c]]
        | g :: gs => (c :: g) :: gs

/-- Whether a component is a non-empty run of digits. -/
def isDigits (l : List Char) : Bool := !l.isEmpty && l.all Char.isDigit

/--
Modelled from the spec: validity of a version directory name — `utils.Version`
parses strings of the form `X.Y.Z` with numeric components and raises
`ValueError` otherwise.
-/
def isVersionStr (s : String) : Bool :=
  match splitDots s.toList with
  | [a, b, c] => isDigits a && isDigits b && isDigits c
  | _ => false

/--
Embeds `_list_all_version_dirs`: nothing when the dataset directory is absent;
otherwise every entry whose name parses as a version, joined onto the
directory.  Entries that do not parse as versions — e.g. leftover incomplete
build directories — are silently skipped.
-/
def list_all_version_dirs (fs : FileSys) (root_dir : String) : List String :=
  if fsExists fs root_dir then
    ((fsListdir fs root_dir).filter isVersionStr).map (pathJoin root_dir)
  else []

/--
The outcome of `DatasetBuilder._build_data_dir`: the ambiguity error listing
every matching root with its versioned path; the single matching root with its
versioned path; or the default root with its versioned path for a fresh build,
carrying every version directory found on disk (the source logs a warning
listing them exactly when this list is nonempty).
-/
inductive LocateResult where
  | ambiguous (matchedDirs : List (String × String))
  | found (data_dir_root : String) (data_dir : String)
  | fresh (data_dir_root : String) (data_dir : String) (other_version_dirs : List String)
deriving DecidableEq

/-- The dataset directory `name[/config]` of `_relative_data_dir`. -/
def builder_dir_rel (name : String) (config : Option String) : String :=
  match config with
  | none => name
  | some c => pathJoin name c

/-- The versioned directory `name[/config]/version` of `_relative_data_dir`. -/
def version_dir_rel (name : String) (config : Option String) (versionStr : String) :
    String :=
  pathJoin (builder_dir_rel name config) versionStr

/-- The candidate roots `_build_data_dir` scans: only the explicitly given root
when one is provided, otherwise `constants.list_data_dirs()`. -/
def effective_roots (given_data_dir : Option String) (constants_dirs : List String) :
    List String :=
  match given_data_dir with
  | some d => [d]
  | none => constants_dirs

/-- The default root: the explicitly given one, otherwise `constants.DATA_DIR`. -/
def default_root (given_data_dir : Option String) (constants_data_dir : String) :
    String :=
  match given_data_dir with
  | some d => d
  | none => constants_data_dir

/--
One step of the scanning loop of `_build_data_dir`: the version listing of the
dataset directory of the root is accumulated first, and the requested versioned
path is then looked up in the accumulated set, as in the source.
-/
def scan_step (fs : FileSys) (builder_dir version_dir : String)
    (acc : List String × List (String × String)) (root : String) :
    List String × List (String × String) :=
  let avd := acc.1 ++ list_all_version_dirs fs (pathJoin root builder_dir)
  let requested := pathJoin root version_dir
  if requested ∈ avd then (avd, acc.2 ++ [(root, requested)]) else (avd, acc.2)

/-- The scanning loop of `_build_data_dir` over all candidate roots. -/
def build_data_dir_scan (fs : FileSys) (builder_dir version_dir : String)
    (roots : List String) : List String × List (String × String) :=
  roots.foldl (scan_step fs builder_dir version_dir) ([], [])

/--
Embeds `DatasetBuilder._build_data_dir`: more than one root holding the
requested version directory is the ambiguity error; exactly one root is
returned as found; none yields the versioned path under the default root
together with every other version directory seen on disk.
-/
def build_data_dir (fs : FileSys) (builder_dir version_dir : String)
    (given_data_dir : Option String) (constants_data_dir : String)
    (constants_dirs : List String) : LocateResult :=
  let roots := effective_roots given_data_dir constants_dirs
  let scan := build_data_dir_scan fs builder_dir version_dir roots
  if 1 < scan.2.length then .ambiguous scan.2
  else
    match scan.2 with
    | [rp] => .found rp.1 rp.2
    | _ =>
        let dd := default_root given_data_dir constants_data_dir
        .fresh dd (pathJoin dd version_dir) scan.1

/--
Whether one root contains the exact requested version directory: its versioned
path occurs in the version listing of the dataset directory of that very root.
-/
def rootHasVersion (fs : FileSys) (builder_dir version_dir root : String) : Bool :=
  decide (pathJoin root version_dir ∈ list_all_version_dirs fs (pathJoin root builder_dir))

/-- Witness fixture: two roots both holding mnist version 1.0.0. -/
def fsTwoRoots : FileSys := [("r1/mnist", ["1.0.0"]), ("r2/mnist", ["1.0.0"])]

/-- Witness fixture: only the second root holds mnist version 1.0.0. -/
def fsOneRoot : FileSys := [("r2/mnist", ["1.0.0"])]

/-- Witness fixture: no root holds the requested 1.0.0; the second root holds
version 0.9.0 plus an incomplete directory whose name is not a version. -/
def fsOtherVersion : FileSys := [("r2/mnist", ["0.9.0", "1.0.0.incompleteXYZ"])]

theorem Version.blt_iff (a b : Version) :
    a.blt b = true ↔
      a.major < b.major ∨ (a.major = b.major ∧
        (a.minor < b.minor ∨ (a.minor = b.minor ∧ a.patch < b.patch))) := by
  simp [Version.blt, Bool.or_eq_true, Bool.and_eq_true, decide_eq_true_eq]

theorem Version.sameKey_iff (a b : Version) :
    a.sameKey b = true ↔
      a.major = b.major ∧ a.minor = b.minor ∧ a.patch = b.patch := by
  simp [Version.sameKey, Bool.and_eq_true, and_assoc]

theorem Version.ble_iff (a b : Version) :
    a.ble b = true ↔
      (a.major < b.major ∨ (a.major = b.major ∧
        (a.minor < b.minor ∨ (a.minor = b.minor ∧ a.patch < b.patch)))) ∨
      (a.major = b.major ∧ a.minor = b.minor ∧ a.patch = b.patch) := by
  simp [Version.ble, Bool.or_eq_true, Version.blt_iff, Version.sameKey_iff]

theorem Version.ble_refl (a : Version) : a.ble a = true := by
  rw [Version.ble_iff]; omega

theorem Version.ble_of_blt {a b : Version} (h : a.blt b = true) : a.ble b = true := by
  rw [Version.blt_iff] at h; rw [Version.ble_iff]; omega

theorem Version.ble_of_not_blt {a b : Version} (h : ¬a.blt b = true) : b.ble a = true := by
  rw [Version.blt_iff] at h; rw [Version.ble_iff]; omega

theorem Version.ble_trans {a b c : Version} (h1 : a.ble b = true) (h2 : b.ble c = true) :
    a.ble c = true := by
  rw [Version.ble_iff] at h1 h2 ⊢; omega

theorem Version.key_eq_of_ble_antisymm {a b : Version}
    (h1 : a.ble b = true) (h2 : b.ble a = true) :
    a.major = b.major ∧ a.minor = b.minor ∧ a.patch = b.patch := by
  rw [Version.ble_iff] at h1 h2; omega

theorem Version.toStr_eq_of_key_eq {a b : Version}
    (h : a.major = b.major ∧ a.minor = b.minor ∧ a.patch = b.patch) :
    a.toStr = b.toStr := by
  obtain ⟨h1, h2, h3⟩ := h
  simp [Version.toStr, h1, h2, h3]

theorem pyMax_cons (v b : Version) (t : List Version) :
    pyMax v (b :: t) = pyMax (if v.blt b then b else v) t := rfl

theorem pyMax_mem : ∀ (l : List Version) (v : Version), pyMax v l ∈ v :: l := by
  intro l
  induction l with
  | nil => intro v; simp [pyMax]
  | cons b t ih =>
    intro v
    rw [pyMax_cons]
    have h := ih (if v.blt b then b else v)
    rcases List.mem_cons.mp h with h1 | h1
    · rw [h1]
      by_cases hc : v.blt b = true
      · simp [hc]
      · simp [hc]
    · exact List.mem_cons_of_mem _ (List.mem_cons_of_mem _ h1)

theorem pyMax_ge : ∀ (l : List Version) (v u : Version),
    u ∈ v :: l → u.ble (pyMax v l) = true := by
  intro l
  induction l with
  | nil =>
    intro v u hu
    simp only [List.mem_cons, List.not_mem_nil, or_false] at hu
    rw [hu]
    exact Version.ble_refl _
  | cons b t ih =>
    intro v u hu
    rw [pyMax_cons]
    have hhead : Version.ble (if v.blt b then b else v) (pyMax (if v.blt b then b else v) t) = true :=
      ih _ _ (List.mem_cons_self _ _)
    have hv : v.ble (if v.blt b then b else v) = true := by
      by_cases hc : v.blt b = true
      · simp only [hc, if_true]; exact Version.ble_of_blt hc
      · simp only [hc, if_false]; exact Version.ble_refl _
    have hb : b.ble (if v.blt b then b else v) = true := by
      by_cases hc : v.blt b = true
      · simp only [hc, if_true]; exact Version.ble_refl _
      · simp only [hc, if_false]; exact Version.ble_of_not_blt hc
    rcases List.mem_cons.mp hu with h1 | h1
    · rw [h1]; exact Version.ble_trans hv hhead
    · rcases List.mem_cons.mp h1 with h2 | h2
      · rw [h2]; exact Version.ble_trans hb hhead
      · exact ih _ _ (List.mem_cons_of_mem _ h2)

/--
C1: Version resolution.  Over `versions = [canonical] ++ supported`,
`_pick_version` of "experimental_latest" returns a candidate maximal under the
lexicographic total order; of an unset request, the first candidate (the
canonical version); of any pattern request, the first candidate (in listed
order) matching under the wildcard rule; and when no candidate matches it fails
reporting the full candidate list.
-/
theorem pick_version_spec (s : VersionSet) :
    (∀ m, pick_version s .experimentalLatest = .ok m →
        m ∈ s.versions ∧ ∀ v ∈ s.versions, v.ble m = true) ∧
    pick_version s .unset = .ok s.canonical ∧
    (∀ p v, pick_version s (.pattern p) = .ok v →
        ∃ l1 l2, s.versions = l1 ++ v :: l2 ∧ v.matches p = true ∧
          ∀ u ∈ l1, u.matches p = false) ∧
    (∀ p, (∀ v ∈ s.versions, v.matches p = false) →
        pick_version s (.pattern p) = .error s.versions) := by
  refine ⟨?_, rfl, ?_, ?_⟩
  · intro m hm
    have hm' : s.maxVersion = m := by
      simpa [pick_version] using hm
    subst hm'
    constructor
    · exact pyMax_mem s.supported s.canonical
    · intro v hv
      exact pyMax_ge s.supported s.canonical v hv
  · intro p v hv
    simp only [pick_version] at hv
    rcases hfind : s.versions.find? (fun v => v.matches p) with _ | w
    · rw [hfind] at hv; exact absurd hv (by simp)
    · rw [hfind] at hv
      have hw : w = v := by simpa using hv
      subst hw
      obtain ⟨hp, l1, l2, heq, hprev⟩ := List.find?_eq_some.mp hfind
      exact ⟨l1, l2, heq, hp, fun u hu => by simpa using hprev u hu⟩
  · intro p hnone
    have : s.versions.find? (fun v => v.matches p) = none := by
      rw [List.find?_eq_none]
      intro x hx
      simp [hnone x hx]
    simp [pick_version, this]

/--
Witness for C1 at the concrete version set `vs1` (canonical 1.0.0, supported
[1.1.0, 0.9.0]): the latest is 1.1.0, the request "1" picks the canonical 1.0.0
first, an unset request picks the canonical, and "2.5.0" fails listing all
three candidates.
-/
theorem pick_version_spec_witness :
    (v110 ∈ vs1.versions ∧ ∀ v ∈ vs1.versions, v.ble v110 = true) ∧
    (∃ l1 l2, vs1.versions = l1 ++ v100 :: l2 ∧ v100.matches pat1 = true ∧
        ∀ u ∈ l1, u.matches pat1 = false) ∧
    pick_version vs1 .unset = .ok vs1.canonical ∧
    pick_version vs1 (.pattern pat250) = .error vs1.versions := by
  refine ⟨(pick_version_spec vs1).1 v110 rfl,
          (pick_version_spec vs1).2.2.1 pat1 v100 rfl,
          (pick_version_spec vs1).2.1,
          (pick_version_spec vs1).2.2.2 pat250 (by decide)⟩

theorem maxVersion_toStr (s : VersionSet) :
    s.maxVersion.toStr = s.canonical.toStr ∨
      ∃ m, pyMaxList s.supported = some m ∧ s.maxVersion.toStr = m.toStr := by
  rcases hsup : s.supported with _ | ⟨s0, rest⟩
  · left
    simp [VersionSet.maxVersion, pyMax, hsup]
  · have hmem := pyMax_mem s.supported s.canonical
    rcases List.mem_cons.mp hmem with heq | hmem'
    · left
      rw [VersionSet.maxVersion, heq]
    · right
      refine ⟨pyMax s0 rest, by simp [pyMaxList, hsup], ?_⟩
      have h1 : (s.maxVersion).ble (pyMax s0 rest) = true := by
        apply pyMax_ge rest s0
        rw [← hsup]
        exact hmem'
      have h2 : (pyMax s0 rest).ble s.maxVersion = true := by
        apply pyMax_ge s.supported s.canonical
        apply List.mem_cons_of_mem
        rw [hsup]
        exact pyMax_mem rest s0
      exact Version.toStr_eq_of_key_eq (Version.key_eq_of_ble_antisymm h1 h2)

theorem mem_installable_iff (s : VersionSet) (x : String) :
    x ∈ installable_versions s ↔ x = s.canonical.toStr ∨ x = s.maxVersion.toStr := by
  unfold installable_versions
  by_cases h1 : s.canonical.toStr = s.maxVersion.toStr
  · simp [h1]
  · simp [h1]

/--
C4 (counterexample): a builder whose final data directory already exists, called
with the default download mode REUSE_DATASET_IF_EXISTS, is not rejected with the
dataset-already-exists error: `download_and_prepare` returns immediately,
reusing the existing data.
-/
theorem already_exists_counterexample :
    download_and_prepare_pre vs1 v100 .reuse_dataset_if_exists true true =
      .reuseExisting ∧
    (PrepareCheck.reuseExisting ≠ PrepareCheck.errAlreadyExists) := by
  exact ⟨rfl, by simp⟩

/--
C4 (amended): when the final data directory already exists and the download mode
is not REUSE_DATASET_IF_EXISTS, a builder whose resolved version passes the
version pre-flight checks is rejected with the dataset-already-exists error, and
the rejection fires before any generation starts; under mode
REUSE_DATASET_IF_EXISTS the call instead returns immediately reusing the data.
-/
theorem already_exists_spec (s : VersionSet) (resolved : Version)
    (mode : GenerateMode) (has_space : Bool)
    (hmode : mode ≠ .reuse_dataset_if_exists)
    (hmarker : resolved.tfds_version_to_prepare = none)
    (hinst : resolved.toStr ∈ installable_versions s) :
    download_and_prepare_pre s resolved mode true has_space = .errAlreadyExists ∧
    ∀ hs, download_and_prepare_pre s resolved .reuse_dataset_if_exists true hs =
      .reuseExisting := by
  constructor
  · have hb : (mode == GenerateMode.reuse_dataset_if_exists) = false := by
      simp [hmode]
    simp [download_and_prepare_pre, hb, hmarker, hinst]
  · intro hs
    simp [download_and_prepare_pre]

/--
Witness for the amended C4: with canonical 1.0.0 resolved and present on disk,
mode FORCE_REDOWNLOAD is rejected with the already-exists error while mode
REUSE_DATASET_IF_EXISTS reuses the data.
-/
theorem already_exists_spec_witness :
    download_and_prepare_pre vs1 v100 .force_redownload true true = .errAlreadyExists ∧
    download_and_prepare_pre vs1 v100 .reuse_dataset_if_exists true true =
      .reuseExisting := by
  have h := already_exists_spec vs1 v100 .force_redownload true
    (by simp) rfl (by decide)
  exact ⟨h.1, h.2 true⟩

/--
C5: pre-flight version generatability.  In a call that does not short-circuit by
reusing an existing dataset, a resolved version carrying the
must-prepare-with-earlier-code marker fails fast with the error naming the
marker-free candidates, and a resolved version that is neither the canonical
version nor the maximum supported version fails fast with the error naming the
installable versions; both failures fire before the build transaction opens and
the decision function retries nothing.
-/
theorem preflight_version_spec (s : VersionSet) (resolved : Version)
    (mode : GenerateMode) (data_exists has_space : Bool)
    (hnoreuse : ¬(data_exists = true ∧ mode = .reuse_dataset_if_exists)) :
    (∀ t, resolved.tfds_version_to_prepare = some t →
        download_and_prepare_pre s resolved mode data_exists has_space =
          .errTfdsVersionToPrepare
            ((s.versions.filter
              (fun v => v.tfds_version_to_prepare.isNone)).map Version.toStr)) ∧
    (resolved.tfds_version_to_prepare = none →
      resolved.toStr ≠ s.canonical.toStr →
      (∀ m, pyMaxList s.supported = some m → resolved.toStr ≠ m.toStr) →
      download_and_prepare_pre s resolved mode data_exists has_space =
        .errVersionTooOld (installable_versions s)) := by
  have hb : (data_exists && (mode == GenerateMode.reuse_dataset_if_exists)) = false := by
    rcases data_exists with _ | _
    · simp
    · simp only [Bool.true_and, beq_eq_false_iff_ne, ne_eq]
      intro hcontra
      exact hnoreuse ⟨rfl, hcontra⟩
  constructor
  · intro t ht
    simp [download_and_prepare_pre, hb, ht]
  · intro hmarker hnc hnm
    have hnotin : resolved.toStr ∉ installable_versions s := by
      rw [mem_installable_iff]
      rintro (hc | hm)
      · exact hnc hc
      · rcases maxVersion_toStr s with hre | ⟨m, hmax, hre⟩
        · exact hnc (hm.trans hre)
        · exact hnm m hmax (hm.trans hre)
    simp [download_and_prepare_pre, hb, hmarker, hnotin]

/--
Witness for C5: a marker-carrying resolved version fails naming the marker-free
candidate 2.0.0, and the resolved 0.9.0 (neither the canonical 2.0.0 nor the
maximum supported 1.1.0) fails naming the installable version 2.0.0.
-/
theorem preflight_version_spec_witness :
    download_and_prepare_pre vs3 v100marked .force_redownload false true =
      .errTfdsVersionToPrepare ["2.0.0"] ∧
    download_and_prepare_pre vs2 v090 .force_redownload false true =
      .errVersionTooOld ["2.0.0"] := by
  constructor
  · have h := (preflight_version_spec vs3 v100marked .force_redownload false true
      (by simp)).1 "v3.2.1" rfl
    exact h.trans (by decide)
  · have h := (preflight_version_spec vs2 v090 .force_redownload false true
      (by simp)).2 rfl (by decide) (by decide)
    exact h.trans (by decide)

/--
C6: the auto-caching decision.  `_should_cache_ds` returns true exactly when
auto-caching is not disabled, the dataset byte size is known, non-zero and at
most 250 MiB, and it is not the case that shuffling is on with
reshuffle-each-iteration not explicitly disabled and more than one shard in the
selected split; in particular it is false for an unknown size, false above
250 MiB, false for a shuffled multi-shard split, and true for a 10 MiB
single-shard split with shuffling enabled.
-/
theorem should_cache_ds_spec :
    (∀ (info : DatasetInfoM) (split : String) (sf : Bool) (rc : ReadConfigM),
      should_cache_ds info split sf rc = true ↔
        (rc.try_autocache = true ∧
         (∃ n, info.dataset_size = some n ∧ 0 < n ∧ n ≤ 250 * MiB) ∧
         ¬(sf = true ∧ rc.shuffle_reshuffle_each_iteration ≠ some false ∧
             1 < split_num_shards info split))) ∧
    (∀ (split : String) (sf : Bool) (rc : ReadConfigM) sp sk,
        should_cache_ds ⟨none, sp, sk⟩ split sf rc = false) ∧
    should_cache_ds infoBig "train" false rcDefault = false ∧
    should_cache_ds info10MiB2Shards "train" true rcDefault = false ∧
    should_cache_ds info10MiB1Shard "train" true rcDefault = true := by
  refine ⟨?_, ?_, by decide, by decide, by decide⟩
  · intro info split sf rc
    unfold should_cache_ds
    split_ifs with h1 h2 h3 h4
    · simp only [Bool.not_eq_true'] at h1
      constructor
      · intro h; cases h
      · rintro ⟨ha, _, _⟩
        rw [ha] at h1
        cases h1
    · simp only [beq_iff_eq] at h2
      constructor
      · intro h; cases h
      · rintro ⟨_, ⟨n, hn, hpos, _⟩, _⟩
        rw [hn] at h2
        simp only [Option.getD_some] at h2
        omega
    · simp only [not_lt] at *
      constructor
      · intro h; cases h
      · rintro ⟨_, ⟨n, hn, _, hle⟩, _⟩
        rw [hn] at h3
        simp only [Option.getD_some] at h3
        omega
    · simp only [Bool.and_eq_true, Bool.not_eq_true', beq_eq_false_iff_ne, ne_eq,
        decide_eq_true_eq] at h4
      constructor
      · intro h; cases h
      · rintro ⟨_, _, hnot⟩
        exact absurd ⟨h4.1.1, h4.1.2, h4.2⟩ hnot
    · simp only [Bool.not_eq_true', Bool.not_eq_false] at h1
      simp only [beq_iff_eq] at h2
      simp only [not_lt] at h3
      simp only [Bool.and_eq_true, Bool.not_eq_true', beq_eq_false_iff_ne, ne_eq,
        decide_eq_true_eq, not_and] at h4
      constructor
      · intro _
        refine ⟨h1, ?_, ?_⟩
        · rcases hds : info.dataset_size with _ | n
          · rw [hds] at h2; simp at h2
          · rw [hds] at h2 h3
            simp only [Option.getD_some] at h2 h3
            exact ⟨n, rfl, by omega, h3⟩
        · rintro ⟨ha, hb, hc⟩
          exact h4 ⟨by rw [ha], by simpa using hb⟩ hc
      · intro _; rfl
  · intro split sf rc sp sk
    simp [should_cache_ds]

/--
C7 (counterexample): with the two-split catalog (train: 3 examples, test: 2),
the sentinel batch size -1 on split "train" pads with the dataset total 5, not
with the 3 examples of the selected split, refuting the claim that the example
count of the selected split itself is used.
-/
theorem batch_sentinel_counterexample :
    build_single_dataset infoTwoSplits "train" false (some (-1)) rcDefault false =
      .ok planTwoSplitsFull ∧
    planTwoSplitsFull.padded_batch = some ((total_num_examples infoTwoSplits : Int)) ∧
    split_num_examples infoTwoSplits "train" = 3 ∧
    planTwoSplitsFull.padded_batch ≠
      some ((split_num_examples infoTwoSplits "train" : Int)) := by
  exact ⟨rfl, by decide, by decide, by decide⟩

/--
C7 (amended): with batch size -1 the whole split is returned as one dense
element and the padded-batch size is the total example count of the dataset
(summed over all splits of the catalog), falling back to the very large
`sys.maxsize` when that count is zero or unknown; any other non-zero requested
batch size is applied as the padded-batch size over a streamed result, and no
batching is applied without a requested batch size.
-/
theorem batch_sentinel_spec (info : DatasetInfoM) (split : String) (sf : Bool)
    (rc : ReadConfigM) (asup : Bool) :
    (∀ plan, build_single_dataset info split sf (some (-1)) rc asup = .ok plan →
        plan.wantsFull = true ∧
        plan.padded_batch =
          some (if total_num_examples info == 0 then sysMaxsize
                else (total_num_examples info : Int))) ∧
    (∀ b plan, b ≠ -1 → b ≠ 0 →
        build_single_dataset info split sf (some b) rc asup = .ok plan →
        plan.wantsFull = false ∧ plan.padded_batch = some b) ∧
    (∀ plan, build_single_dataset info split sf none rc asup = .ok plan →
        plan.wantsFull = false ∧ plan.padded_batch = none) := by
  refine ⟨?_, ?_, ?_⟩
  · intro plan h
    simp only [build_single_dataset] at h
    split at h
    · exact absurd h (by simp)
    · injection h with hplan
      subst hplan
      constructor
      · simp
      · simp only [beq_self_eq_true, if_true]
        by_cases hz : (total_num_examples info == 0) = true
        · simp [hz, sysMaxsize]
        · simp only [beq_iff_eq] at hz
          simp [hz]
  · intro b plan hb hb0 h
    simp only [build_single_dataset] at h
    split at h
    · exact absurd h (by simp)
    · injection h with hplan
      subst hplan
      have hne : ((some b : Option Int) == some (-1)) = false := by
        simp [hb]
      constructor
      · simp [hne]
      · simp [hne, hb0]
  · intro plan h
    simp only [build_single_dataset] at h
    split at h
    · exact absurd h (by simp)
    · injection h with hplan
      subst hplan
      constructor
      · simp
      · simp

/--
Witness for the amended C7: the two-split catalog padded to the dataset total 5
as one dense element under the sentinel; the zero-example catalog falling back
to `sys.maxsize`; an explicit batch size 4 applied as given over a stream; and
no batching without a batch size.
-/
theorem batch_sentinel_spec_witness :
    (planTwoSplitsFull.wantsFull = true ∧
      planTwoSplitsFull.padded_batch =
        some (if total_num_examples infoTwoSplits == 0 then sysMaxsize
              else (total_num_examples infoTwoSplits : Int))) ∧
    (∃ plan, build_single_dataset infoZeroExamples "train" false (some (-1))
        rcDefault false = .ok plan ∧ plan.padded_batch = some sysMaxsize) ∧
    (∃ plan, build_single_dataset infoTwoSplits "train" false (some 4)
        rcDefault false = .ok plan ∧ plan.wantsFull = false ∧
        plan.padded_batch = some 4) ∧
    (∃ plan, build_single_dataset infoTwoSplits "train" false none
        rcDefault false = .ok plan ∧ plan.padded_batch = none) := by
  refine ⟨(batch_sentinel_spec infoTwoSplits "train" false rcDefault false).1
            planTwoSplitsFull rfl, ?_, ?_, ?_⟩
  · refine ⟨_, rfl, ?_⟩
    have h := (batch_sentinel_spec infoZeroExamples "train" false rcDefault false).1
      _ rfl
    rw [h.2]
    decide
  · refine ⟨_, rfl, ?_⟩
    exact (batch_sentinel_spec infoTwoSplits "train" false rcDefault false).2.1
      4 _ (by decide) (by decide) rfl
  · refine ⟨_, rfl, ?_⟩
    exact ((batch_sentinel_spec infoTwoSplits "train" false rcDefault false).2.2
      _ rfl).2

/--
C8: supervised-pair projection.  With `as_supervised=True` and no declared
supervised keys the composed read fails with the not-supervised error — the
read functions are pure, so the failure affects only that call and no builder
or on-disk state; with declared keys (input, label) the pipeline projects onto
that pair, each example of the stream being replaced by its (input, label)
2-tuple; without supervised mode the stream passes through unchanged.
-/
theorem as_supervised_spec :
    (∀ (info : DatasetInfoM) (split : String) (sf : Bool) (bs : Option Int)
        (rc : ReadConfigM),
        info.supervised_keys = none →
          build_single_dataset info split sf bs rc true = .error notSupervisedMsg) ∧
    (∀ (info : DatasetInfoM) (split : String) (sf : Bool) (bs : Option Int)
        (rc : ReadConfigM) (ik lk : String),
        info.supervised_keys = some (ik, lk) →
          ∃ plan, build_single_dataset info split sf bs rc true = .ok plan ∧
            plan.projected = some (ik, lk)) ∧
    (∀ sk ds, as_supervised_stage sk false ds = .ok (.inl ds)) ∧
    (∀ (ik lk : String) (ds : List (List (String × Nat))) out,
        as_supervised_stage (some (ik, lk)) true ds = .ok (.inr out) →
        out.length = ds.length ∧
          ∀ (i : Nat) (h1 : i < out.length) (h2 : i < ds.length),
            out.get ⟨i, h1⟩ =
              (lookupFeature (ds.get ⟨i, h2⟩) ik, lookupFeature (ds.get ⟨i, h2⟩) lk)) := by
  refine ⟨?_, ?_, ?_, ?_⟩
  · intro info split sf bs rc h
    simp [build_single_dataset, h]
  · intro info split sf bs rc ik lk h
    refine ⟨{ cached := should_cache_ds info split sf rc
              padded_batch :=
                match (if bs == some (-1) then
                    some (if total_num_examples info == 0 then sysMaxsize
                          else (total_num_examples info : Int))
                  else bs) with
                | none => none
                | some b => if b == 0 then none else some b
              projected := some (ik, lk)
              prefetched := true
              nondeterministic := sf && rc.experimental_deterministic.isNone &&
                rc.shuffle_seed.isNone
              wantsFull := bs == some (-1) }, ?_, rfl⟩
    unfold build_single_dataset
    rw [h]
    rfl
  · intro sk ds
    rfl
  · intro ik lk ds out h
    have hout : ds.map (fun fs => (lookupFeature fs ik, lookupFeature fs lk)) = out := by
      simpa [as_supervised_stage] using h
    subst hout
    refine ⟨by simp, ?_⟩
    intro i h1 h2
    simp [List.get_map]

/--
Witness for C8: the unsupervised two-split catalog fails the supervised read;
the supervised catalog projects onto ("image", "label"); and on one concrete
example the stage produces exactly its (input, label) pair.
-/
theorem as_supervised_spec_witness :
    build_single_dataset infoTwoSplits "train" false none rcDefault true =
      .error notSupervisedMsg ∧
    (∃ plan, build_single_dataset infoSupervised "train" false none rcDefault true =
        .ok plan ∧ plan.projected = some ("image", "label")) ∧
    ([((some 7 : Option Nat), (some 1 : Option Nat))]).length =
      ([[("image", 7), ("label", 1)]] : List (List (String × Nat))).length := by
  refine ⟨as_supervised_spec.1 infoTwoSplits "train" false none rcDefault rfl,
          as_supervised_spec.2.1 infoSupervised "train" false none rcDefault
            "image" "label" rfl,
          (as_supervised_spec.2.2.2 "image" "label"
            [[("image", 7), ("label", 1)]] [(some 7, some 1)] rfl).1⟩

/--
C9: builder-config validation asymmetry.  Constructing a builder with a config
object whose name is registered requires the config to be the registered object
itself and to carry a non-empty version and a non-empty description, each
violation raising its error; a custom config with an unregistered (non-empty)
name is accepted with only a warning, the version and description checks being
skipped entirely.
-/
theorem create_builder_config_spec (cfgs : List BuilderConfigM) (c : BuilderConfigM) :
    (c.name ≠ "" → findConfig cfgs c.name = none →
        create_builder_config cfgs (some (.inl c)) = .ok (some c, true)) ∧
    (∀ r, c.name ≠ "" → findConfig cfgs c.name = some r → c.oid ≠ r.oid →
        create_builder_config cfgs (some (.inl c)) =
          .error (.cannotNameCustomAsAvailable (cfgs.map fun x => x.name))) ∧
    (∀ r, c.name ≠ "" → findConfig cfgs c.name = some r → c.oid = r.oid →
        pyTruthy c.version = false →
        create_builder_config cfgs (some (.inl c)) =
          .error (.mustHaveVersion c.name)) ∧
    (∀ r, c.name ≠ "" → findConfig cfgs c.name = some r → c.oid = r.oid →
        pyTruthy c.version = true → pyTruthy c.description = false →
        create_builder_config cfgs (some (.inl c)) =
          .error (.mustHaveDescription c.name)) ∧
    (∀ r, c.name ≠ "" → findConfig cfgs c.name = some r → c.oid = r.oid →
        pyTruthy c.version = true → pyTruthy c.description = true →
        create_builder_config cfgs (some (.inl c)) = .ok (some c, false)) := by
  have hval : create_builder_config cfgs (some (.inl c)) =
      validate_builder_config cfgs c := rfl
  refine ⟨?_, ?_, ?_, ?_, ?_⟩
  · intro hname hfind
    rw [hval]
    unfold validate_builder_config
    rw [hfind]
    simp [hname]
  · intro r hname hfind hoid
    rw [hval]
    unfold validate_builder_config
    rw [hfind]
    simp [hname, hoid]
  · intro r hname hfind hoid hver
    rw [hval]
    unfold validate_builder_config
    rw [hfind]
    simp [hname, hoid, hver]
  · intro r hname hfind hoid hver hdesc
    rw [hval]
    unfold validate_builder_config
    rw [hfind]
    simp [hname, hoid, hver, hdesc]
  · intro r hname hfind hoid hver hdesc
    rw [hval]
    unfold validate_builder_config
    rw [hfind]
    simp [hname, hoid, hver, hdesc]

/--
Witness for C9 on the concrete registry [plain, noversion, nodescription]: the
version-less and description-less registered configs are rejected, a same-named
distinct object is rejected, the valid registered config passes without a
warning, and the unregistered custom config with neither version nor
description passes with only a warning.
-/
theorem create_builder_config_spec_witness :
    create_builder_config cfgs9 (some (.inl cfgCustom)) = .ok (some cfgCustom, true) ∧
    create_builder_config cfgs9 (some (.inl cfgImpostor)) =
      .error (.cannotNameCustomAsAvailable ["plain", "noversion", "nodescription"]) ∧
    create_builder_config cfgs9 (some (.inl cfgNoVersion)) =
      .error (.mustHaveVersion "noversion") ∧
    create_builder_config cfgs9 (some (.inl cfgNoDescription)) =
      .error (.mustHaveDescription "nodescription") ∧
    create_builder_config cfgs9 (some (.inl cfgPlain)) = .ok (some cfgPlain, false) := by
  refine ⟨(create_builder_config_spec cfgs9 cfgCustom).1 (by decide) rfl,
          ?_, ?_, ?_, ?_⟩
  · exact (create_builder_config_spec cfgs9 cfgImpostor).2.1 cfgPlain
      (by decide) rfl (by decide)
  · exact (create_builder_config_spec cfgs9 cfgNoVersion).2.2.1 cfgNoVersion
      (by decide) rfl rfl rfl
  · exact (create_builder_config_spec cfgs9 cfgNoDescription).2.2.2.1 cfgNoDescription
      (by decide) rfl rfl rfl rfl
  · exact (create_builder_config_spec cfgs9 cfgPlain).2.2.2.2 cfgPlain
      (by decide) rfl rfl rfl rfl

/--
C10: accessing the `info` property succeeds exactly when the `_version` of the
builder has been resolved; before that the access raises the assertion
error, and afterwards the cached `DatasetInfo` reflects the resolved version.
-/
theorem info_before_version_spec :
    (∀ b : BuilderVersionState, (builder_info b).isOk = b._version.isSome) ∧
    builder_info { _version := none } = .error infoBeforeVersionMsg ∧
    (∀ v, builder_info { _version := some v } = .ok { version := v }) := by
  refine ⟨?_, rfl, fun v => rfl⟩
  intro b
  rcases b with ⟨_ | v⟩ <;> rfl

theorem isPrefixOf_append_self (l t : List String) : l.isPrefixOf (l ++ t) = true := by
  rw [List.isPrefixOf_iff_prefix]
  exact List.prefix_append l t

/--
C3: build atomicity.  With the temporary directory fresh and the final path
absent beforehand (the already-exists pre-check guarantees the latter): when the
body raises, the filesystem is restored to its previous state — the final path
does not exist and no temporary sibling directory remains, so no partial
artifact ever becomes visible at the final path; when the body returns
normally, the temporary directory is renamed onto the final path, which then
contains exactly what the body wrote under its rebound output path.
-/
theorem incomplete_dir_spec (fs : FlatFS) (finalPath tmpPath : PathC)
    (bodyWrites : List (PathC × String))
    (hfresh : ∀ kv ∈ fs, tmpPath.isPrefixOf kv.1 = false)
    (hfinal : ∀ kv ∈ fs, finalPath.isPrefixOf kv.1 = false) :
    ((incomplete_dir_run fs finalPath tmpPath bodyWrites true).2 = fs ∧
      (∀ kv ∈ (incomplete_dir_run fs finalPath tmpPath bodyWrites true).2,
        tmpPath.isPrefixOf kv.1 = false ∧ finalPath.isPrefixOf kv.1 = false)) ∧
    (incomplete_dir_run fs finalPath tmpPath bodyWrites false).2 =
      fs ++ bodyWrites.map (fun kv => (finalPath ++ kv.1, kv.2)) := by
  have hrestore : (incomplete_dir_run fs finalPath tmpPath bodyWrites true).2 = fs := by
    show (fs ++ bodyWrites.map (fun kv => (tmpPath ++ kv.1, kv.2))).filter
        (fun kv => !(tmpPath.isPrefixOf kv.1)) = fs
    rw [List.filter_append]
    have h1 : fs.filter (fun kv => !(tmpPath.isPrefixOf kv.1)) = fs := by
      rw [List.filter_eq_self]
      intro kv hkv
      simp [hfresh kv hkv]
    have h2 : (bodyWrites.map (fun kv => (tmpPath ++ kv.1, kv.2))).filter
        (fun kv => !(tmpPath.isPrefixOf kv.1)) = [] := by
      rw [List.filter_eq_nil_iff]
      intro kv hkv
      obtain ⟨w, _, hw⟩ := List.mem_map.mp hkv
      rw [← hw]
      simp [isPrefixOf_append_self]
    rw [h1, h2, List.append_nil]
  refine ⟨⟨hrestore, ?_⟩, ?_⟩
  · rw [hrestore]
    intro kv hkv
    exact ⟨hfresh kv hkv, hfinal kv hkv⟩
  · show (fs ++ bodyWrites.map (fun kv => (tmpPath ++ kv.1, kv.2))).map
        (fun kv => if tmpPath.isPrefixOf kv.1 then
          (finalPath ++ kv.1.drop tmpPath.length, kv.2) else kv) =
      fs ++ bodyWrites.map (fun kv => (finalPath ++ kv.1, kv.2))
    rw [List.map_append]
    have h1 : fs.map (fun kv => if tmpPath.isPrefixOf kv.1 then
        (finalPath ++ kv.1.drop tmpPath.length, kv.2) else kv) = fs := by
      have hcong : fs.map (fun kv => if tmpPath.isPrefixOf kv.1 then
          (finalPath ++ kv.1.drop tmpPath.length, kv.2) else kv) = fs.map id :=
        List.map_congr_left fun kv hkv => by simp [hfresh kv hkv]
      rw [hcong, List.map_id]
    have h2 : (bodyWrites.map (fun kv => (tmpPath ++ kv.1, kv.2))).map
        (fun kv => if tmpPath.isPrefixOf kv.1 then
          (finalPath ++ kv.1.drop tmpPath.length, kv.2) else kv) =
        bodyWrites.map (fun kv => (finalPath ++ kv.1, kv.2)) := by
      rw [List.map_map]
      apply List.map_congr_left
      intro kv _
      simp [isPrefixOf_append_self, List.drop_left]
    rw [h1, h2]

/--
Witness for C3 at a concrete build: a failing body leaves only the unrelated
file, with nothing under the final or temporary mnist directories; a successful
body promotes exactly its two files to the final directory.
-/
theorem incomplete_dir_spec_witness :
    (incomplete_dir_run fsOther finalMnist tmpMnist writesMnist true).2 = fsOther ∧
    (incomplete_dir_run fsOther finalMnist tmpMnist writesMnist false).2 =
      fsOther ++ [(["data", "mnist", "1.0.0", "mnist-train.tfrecord"], "records"),
                  (["data", "mnist", "1.0.0", "dataset_info.json"], "info")] := by
  have h := incomplete_dir_spec fsOther finalMnist tmpMnist writesMnist
    (by decide) (by decide)
  exact ⟨h.1.1, h.2.trans (by decide)⟩

theorem scan_go (fs : FileSys) (bd vd : String) :
    ∀ (roots : List String) (A : List String) (R : List (String × String)),
      (∀ r ∈ roots, pathJoin r vd ∉ A) →
      (∀ r1 ∈ roots, ∀ r2 ∈ roots,
          pathJoin r1 vd ∈ list_all_version_dirs fs (pathJoin r2 bd) → r1 = r2) →
      roots.Nodup →
      roots.foldl (scan_step fs bd vd) (A, R) =
        (A ++ (roots.map fun r => list_all_version_dirs fs (pathJoin r bd)).flatten,
         R ++ (roots.filter (rootHasVersion fs bd vd)).map
           fun r => (r, pathJoin r vd)) := by
  intro roots
  induction roots with
  | nil => intro A R _ _ _; simp
  | cons r rest ih =>
    intro A R hA hinj hnodup
    have hnotA : pathJoin r vd ∉ A := hA r (List.mem_cons_self r rest)
    have hcond : (pathJoin r vd ∈ A ++ list_all_version_dirs fs (pathJoin r bd)) ↔
        rootHasVersion fs bd vd r = true := by
      rw [List.mem_append]
      simp [rootHasVersion, hnotA]
    have hAnext : ∀ r2 ∈ rest,
        pathJoin r2 vd ∉ A ++ list_all_version_dirs fs (pathJoin r bd) := by
      intro r2 hr2
      rw [List.mem_append]
      rintro (hin | hin)
      · exact hA r2 (List.mem_cons_of_mem r hr2) hin
      · have heq : r2 = r := hinj r2 (List.mem_cons_of_mem r hr2)
          r (List.mem_cons_self r rest) hin
        rw [heq] at hr2
        exact (List.nodup_cons.mp hnodup).1 hr2
    have hinjnext : ∀ r1 ∈ rest, ∀ r2 ∈ rest,
        pathJoin r1 vd ∈ list_all_version_dirs fs (pathJoin r2 bd) → r1 = r2 := by
      intro r1 h1 r2 h2 hin
      exact hinj r1 (List.mem_cons_of_mem r h1) r2 (List.mem_cons_of_mem r h2) hin
    have hnodupnext : rest.Nodup := (List.nodup_cons.mp hnodup).2
    rw [List.foldl_cons]
    by_cases h : rootHasVersion fs bd vd r = true
    · have hstep : scan_step fs bd vd (A, R) r =
          (A ++ list_all_version_dirs fs (pathJoin r bd),
           R ++ [(r, pathJoin r vd)]) := by
        unfold scan_step
        rw [if_pos (hcond.mpr h)]
      rw [hstep, ih _ _ hAnext hinjnext hnodupnext,
        List.filter_cons_of_pos h]
      simp [List.append_assoc]
    · have hstep : scan_step fs bd vd (A, R) r =
          (A ++ list_all_version_dirs fs (pathJoin r bd), R) := by
        unfold scan_step
        rw [if_neg (fun hc => h (hcond.mp hc))]
      rw [hstep, ih _ _ hAnext hinjnext hnodupnext,
        List.filter_cons_of_neg (by simp [h])]
      simp [List.append_assoc]

/--
C2: three-way location resolution.  Over the candidate roots (only the
explicitly given root when one is provided), with roots distinct and versioned
paths not colliding across roots: when more than one root contains the exact
requested version directory, resolution is the ambiguity error listing every
matching root with its versioned path; when exactly one does, that root and its
versioned path are returned; when none does, the versioned path under the
default root is returned together with the version directories found on disk — all of them
other versions than the requested one — and the source warns exactly when that
list is nonempty (directory names that do not parse as versions are silently
skipped by `list_all_version_dirs`).
-/
theorem build_data_dir_spec (fs : FileSys) (builder_dir version_dir : String)
    (given_data_dir : Option String) (constants_data_dir : String)
    (constants_dirs : List String)
    (hnodup : (effective_roots given_data_dir constants_dirs).Nodup)
    (hinj : ∀ r1 ∈ effective_roots given_data_dir constants_dirs,
        ∀ r2 ∈ effective_roots given_data_dir constants_dirs,
        pathJoin r1 version_dir ∈
          list_all_version_dirs fs (pathJoin r2 builder_dir) → r1 = r2) :
    (1 < ((effective_roots given_data_dir constants_dirs).filter
          (rootHasVersion fs builder_dir version_dir)).length →
      build_data_dir fs builder_dir version_dir given_data_dir constants_data_dir
          constants_dirs =
        .ambiguous (((effective_roots given_data_dir constants_dirs).filter
            (rootHasVersion fs builder_dir version_dir)).map
          fun r => (r, pathJoin r version_dir))) ∧
    (∀ r, (effective_roots given_data_dir constants_dirs).filter
          (rootHasVersion fs builder_dir version_dir) = [r] →
      build_data_dir fs builder_dir version_dir given_data_dir constants_data_dir
          constants_dirs = .found r (pathJoin r version_dir)) ∧
    ((effective_roots given_data_dir constants_dirs).filter
          (rootHasVersion fs builder_dir version_dir) = [] →
      build_data_dir fs builder_dir version_dir given_data_dir constants_data_dir
          constants_dirs =
        .fresh (default_root given_data_dir constants_data_dir)
          (pathJoin (default_root given_data_dir constants_data_dir) version_dir)
          ((effective_roots given_data_dir constants_dirs).map
            fun r => list_all_version_dirs fs (pathJoin r builder_dir)).flatten ∧
      ∀ x ∈ ((effective_roots given_data_dir constants_dirs).map
          fun r => list_all_version_dirs fs (pathJoin r builder_dir)).flatten,
        ∀ r ∈ effective_roots given_data_dir constants_dirs,
          x ≠ pathJoin r version_dir) := by
  have hscan : build_data_dir_scan fs builder_dir version_dir
      (effective_roots given_data_dir constants_dirs) =
      (((effective_roots given_data_dir constants_dirs).map
          fun r => list_all_version_dirs fs (pathJoin r builder_dir)).flatten,
       ((effective_roots given_data_dir constants_dirs).filter
          (rootHasVersion fs builder_dir version_dir)).map
         fun r => (r, pathJoin r version_dir)) := by
    unfold build_data_dir_scan
    rw [scan_go fs builder_dir version_dir _ [] [] (by simp) hinj hnodup]
    simp
  refine ⟨?_, ?_, ?_⟩
  · intro hlen
    simp only [build_data_dir]
    rw [hscan]
    rw [if_pos (by simpa using hlen)]
  · intro r hfilter
    simp only [build_data_dir]
    rw [hscan, hfilter]
    rfl
  · intro hfilter
    constructor
    · simp only [build_data_dir]
      rw [hscan, hfilter]
      rfl
    · intro x hx r hr hxeq
      obtain ⟨l, hl, hxl⟩ := List.mem_flatten.mp hx
      obtain ⟨r2, hr2, hleq⟩ := List.mem_map.mp hl
      rw [← hleq] at hxl
      rw [hxeq] at hxl
      have heq : r = r2 := hinj r hr r2 hr2 hxl
      rw [← heq] at hxl
      have hhas : rootHasVersion fs builder_dir version_dir r = true := by
        rw [rootHasVersion, decide_eq_true_eq]
        exact hxl
      have hmem : r ∈ (effective_roots given_data_dir constants_dirs).filter
          (rootHasVersion fs builder_dir version_dir) :=
        List.mem_filter.mpr ⟨hr, hhas⟩
      rw [hfilter] at hmem
      exact (List.not_mem_nil r) hmem

/--
Witness for C2 on concrete filesystems over roots r1 and r2 requesting
mnist/1.0.0: both roots holding it is the ambiguity error naming both; only r2
holding it finds r2; neither holding it (r2 holding 0.9.0 plus a directory
whose name is not a version) falls back to the default root r1 and reports the
0.9.0 directory, the invalid name being skipped.
-/
theorem build_data_dir_spec_witness :
    build_data_dir fsTwoRoots "mnist" "mnist/1.0.0" none "r1" ["r1", "r2"] =
      .ambiguous [("r1", "r1/mnist/1.0.0"), ("r2", "r2/mnist/1.0.0")] ∧
    build_data_dir fsOneRoot "mnist" "mnist/1.0.0" none "r1" ["r1", "r2"] =
      .found "r2" "r2/mnist/1.0.0" ∧
    build_data_dir fsOtherVersion "mnist" "mnist/1.0.0" none "r1" ["r1", "r2"] =
      .fresh "r1" "r1/mnist/1.0.0" ["r2/mnist/0.9.0"] := by
  refine ⟨?_, ?_, ?_⟩
  · have h := (build_data_dir_spec fsTwoRoots "mnist" "mnist/1.0.0" none "r1"
      ["r1", "r2"] (by decide) (by decide)).1 (by decide)
    exact h.trans (by decide)
  · exact (build_data_dir_spec fsOneRoot "mnist" "mnist/1.0.0" none "r1"
      ["r1", "r2"] (by decide) (by decide)).2.1 "r2" (by decide)
  · have h := ((build_data_dir_spec fsOtherVersion "mnist" "mnist/1.0.0" none "r1"
      ["r1", "r2"] (by decide) (by decide)).2.2 (by decide)).1
    exact h.trans (by decide)

end Tfds
